import Mathlib

/-!
Shallow embedding of `src/hass_nabucasa/remote.py` (class `RemoteUI`).

The Python class holds four nullable attributes (`_acme`, `_snitun`,
`_token`, `_snitun_server`) and exposes three async operations
(`load_backend`, `close_backend`, `handle_connection_requests`) plus the
read-only property `snitun_server`.  External collaborators (the cloud
backend API, the ACME certificate handler, the SniTun tunnel client and
the AES keyset generator) are modelled as environment records supplying
the outcome of each awaited external call; every operation returns the
Python result (normal return or raised exception), the successor state,
and the ordered list of external effects it performed.
-/

namespace HassNabucasa

/-- Body of a successful `cloud_api.async_remote_register` response:
`data["domain"]`, `data["email"]`, `data["server"]`. -/
structure RegisterData where
  domain : String
  email : String
  server : String
deriving DecidableEq, Repr

/-- Outcome of an awaited remote call wrapped in `async_timeout.timeout(10)`:
either the 10-time-unit timeout expired, or a response with an HTTP status
and a parsed JSON body arrived. -/
inductive CallResult (α : Type) where
  | timeout : CallResult α
  | resp (status : Nat) (body : α) : CallResult α
deriving DecidableEq, Repr

/-- The exceptions that can escape the three operations.
`remoteBackendError` and `remoteNotConnected` are the classes defined in
`remote.py`; `timeoutError` is `asyncio.TimeoutError` raised by
`async_timeout.timeout(10)` on expiry; `certificateError` stands for a
failure propagating out of `AcmeHandler.issue_certificate`;
`transportError` stands for a failure propagating out of the SniTun
client's `start`/`connect`. -/
inductive PyError where
  | remoteBackendError
  | remoteNotConnected
  | timeoutError
  | certificateError
  | transportError
deriving DecidableEq, Repr

/-- Result of one Python call: normal return (all three methods return
`None`) or a raised exception. -/
inductive PyResult where
  | ok
  | raised (e : PyError)
deriving DecidableEq, Repr

/-- The `AcmeHandler(self.cloud, data["domain"], data["email"])` object as
far as `RemoteUI` observes it: the domain/email it was constructed with. -/
structure AcmeHandler where
  domain : String
  email : String
deriving DecidableEq, Repr

/-- The `SniTunClientAioHttp(..., snitun_server=data["server"],
snitun_port=443)` object as far as `RemoteUI` observes it: the server and
port it was bound to, and whether `start()` has completed. -/
structure SniTunClient where
  server : String
  port : Nat
  started : Bool
deriving DecidableEq, Repr

/-- The mutable attributes of a `RemoteUI` instance, exactly the four set
in `__init__`. -/
structure RemoteUI where
  _acme : Option AcmeHandler
  _snitun : Option SniTunClient
  _token : Option String
  _snitun_server : Option String
deriving DecidableEq, Repr

/-- `RemoteUI.__init__`: all four attributes start as `None`. -/
def RemoteUI.init : RemoteUI :=
  { _acme := none, _snitun := none, _token := none, _snitun_server := none }

/-- The read-only property `snitun_server`: returns `self._snitun_server`. -/
def RemoteUI.snitun_server (s : RemoteUI) : Option String :=
  s._snitun_server

/-- Observable external effects, in program order. -/
inductive Effect where
  | registerInstance
  | isValidCertificate
  | issueCertificate
  | loadCertChain
  | startTunnel (server : String) (port : Nat)
  | stopTunnel
  | generateKeyset (key iv : String)
  | requestToken (key iv : String)
  | connect (tok key iv : String)
deriving DecidableEq, Repr

/-- Result of running one operation: the Python result, the state of the
`RemoteUI` object afterwards, and the external effects performed. -/
structure Outcome where
  result : PyResult
  state : RemoteUI
  effects : List Effect
deriving DecidableEq, Repr

/-- Environment for one `load_backend` call: the outcome of the
registration call, the result of `is_valid_certificate`, whether
`issue_certificate` succeeds, and whether `self._snitun.start()`
succeeds. -/
structure LoadEnv where
  register : CallResult RegisterData
  certValid : Bool
  issueOk : Bool
  startOk : Bool
deriving DecidableEq, Repr

/-- Environment for one `handle_connection_requests` call: the keyset
returned by `generate_aes_keyset()`, the outcome of the
`async_remote_token` call, and whether `self._snitun.connect` succeeds. -/
structure HandleEnv where
  aes_key : String
  aes_iv : String
  tokenResp : CallResult String
  connectOk : Bool
deriving DecidableEq, Repr

/-- Tail of `load_backend` after the certificate is valid: build the TLS
context (`_create_context`, which loads the cert chain), construct the
SniTun client bound to `data["server"]` on port 443, assign
`self._snitun` and `self._snitun_server`, then `await self._snitun.start()`.
The two assignments happen before the `start()` await, so on a failing
start the references remain set. -/
def startPhase (s : RemoteUI) (data : RegisterData) (env : LoadEnv)
    (effs : List Effect) : Outcome :=
  let client : SniTunClient := { server := data.server, port := 443, started := false }
  let s2 : RemoteUI := { s with _snitun := some client, _snitun_server := some data.server }
  let effs2 := effs ++ [Effect.loadCertChain, Effect.startTunnel data.server 443]
  if env.startOk then
    { result := .ok,
      state := { s2 with _snitun := some { client with started := true } },
      effects := effs2 }
  else
    { result := .raised .transportError, state := s2, effects := effs2 }

/-- `RemoteUI.load_backend`.  Early-returns if `self._snitun` is set;
otherwise registers with the backend under a 10-time-unit timeout (a
timeout raises `asyncio.TimeoutError`, a non-200 status raises
`RemoteBackendError`), constructs the `AcmeHandler`, issues a certificate
when the stored one is invalid, then enters `startPhase`. -/
def load_backend (s : RemoteUI) (env : LoadEnv) : Outcome :=
  if s._snitun.isSome then { result := .ok, state := s, effects := [] }
  else
    match env.register with
    | .timeout =>
        { result := .raised .timeoutError, state := s,
          effects := [Effect.registerInstance] }
    | .resp status data =>
        if status ≠ 200 then
          { result := .raised .remoteBackendError, state := s,
            effects := [Effect.registerInstance] }
        else
          let s1 : RemoteUI :=
            { s with _acme := some { domain := data.domain, email := data.email } }
          if env.certValid then
            startPhase s1 data env [Effect.registerInstance, Effect.isValidCertificate]
          else if env.issueOk then
            startPhase s1 data env
              [Effect.registerInstance, Effect.isValidCertificate, Effect.issueCertificate]
          else
            { result := .raised .certificateError, state := s1,
              effects :=
                [Effect.registerInstance, Effect.isValidCertificate,
                 Effect.issueCertificate] }

/-- `RemoteUI.close_backend`: stop the tunnel when one is held (`stop` is
a best-effort shutdown that does not raise), then unconditionally set
`self._snitun = None` and `self._acme = None`.  Note that neither
`self._token` nor `self._snitun_server` is touched. -/
def close_backend (s : RemoteUI) : Outcome :=
  { result := .ok,
    state := { s with _snitun := none, _acme := none },
    effects := if s._snitun.isSome then [Effect.stopTunnel] else [] }

set_option linter.unusedVariables false in
/-- `RemoteUI.handle_connection_requests`.  Raises `RemoteNotConnected`
when `self._snitun` is unset or `self._token` is set; otherwise generates
a fresh AES keyset, requests a session token under a 10-time-unit timeout
(timeout raises `asyncio.TimeoutError`, non-200 raises
`RemoteBackendError`), and on success forwards `(token, key, iv)` into
`self._snitun.connect`.  The Python method does not assign `self._token`
anywhere. -/
def handle_connection_requests (s : RemoteUI) (env : HandleEnv)
    (caller_ip : String) : Outcome :=
  if s._snitun.isNone || s._token.isSome then
    { result := .raised .remoteNotConnected, state := s, effects := [] }
  else
    let effs := [Effect.generateKeyset env.aes_key env.aes_iv,
                 Effect.requestToken env.aes_key env.aes_iv]
    match env.tokenResp with
    | .timeout =>
        { result := .raised .timeoutError, state := s, effects := effs }
    | .resp status tok =>
        if status ≠ 200 then
          { result := .raised .remoteBackendError, state := s, effects := effs }
        else
          { result := if env.connectOk then .ok else .raised .transportError,
            state := s,
            effects := effs ++ [Effect.connect tok env.aes_key env.aes_iv] }

/-- The concrete registration record used by the spec's round-trip
example. -/
def regData : RegisterData :=
  { domain := "abc.example.org", email := "a@b.com", server := "relay1.example.org" }

/-- A fully successful `load_backend` environment with a valid
pre-existing certificate. -/
def goodLoadEnv : LoadEnv :=
  { register := .resp 200 regData, certValid := true, issueOk := true, startOk := true }

/-- A fully successful `handle_connection_requests` environment. -/
def goodHandleEnv : HandleEnv :=
  { aes_key := "k1", aes_iv := "iv1", tokenResp := .resp 200 "T", connectOk := true }

/-- State of a manager after a fully successful `load_backend` from
fresh. -/
def activeState : RemoteUI := (load_backend RemoteUI.init goodLoadEnv).state

/-- Helper: the idempotency guard — a held tunnel client makes
`load_backend` an immediate no-op. -/
theorem load_backend_noop_of_isSome (s : RemoteUI) (env : LoadEnv)
    (h : s._snitun.isSome = true) :
    load_backend s env = { result := .ok, state := s, effects := [] } := by
  simp [load_backend, h]

/-- Helper: a `load_backend` that returns normally always leaves a tunnel
client held. -/
theorem load_backend_ok_isSome (s0 : RemoteUI) (env0 : LoadEnv)
    (hok : (load_backend s0 env0).result = .ok) :
    ((load_backend s0 env0).state)._snitun.isSome = true := by
  by_cases hs0 : s0._snitun.isSome
  · simp [load_backend, hs0]
  · simp only [load_backend, hs0, if_false, Bool.false_eq_true] at hok ⊢
    match hr : env0.register with
    | .timeout => simp [hr] at hok
    | .resp status data =>
      simp only [hr] at hok ⊢
      by_cases hst : status ≠ 200
      · simp [hst] at hok
      · simp only [hst, if_false] at hok ⊢
        by_cases hcv : env0.certValid
        · simp only [hcv, if_true] at hok ⊢
          by_cases hso : env0.startOk
          · simp [startPhase, hso]
          · simp [startPhase, hso] at hok
        · simp only [hcv, Bool.false_eq_true, if_false] at hok ⊢
          by_cases hio : env0.issueOk
          · simp only [hio, if_true] at hok ⊢
            by_cases hso : env0.startOk
            · simp [startPhase, hso]
            · simp [startPhase, hso] at hok
          · simp [hio] at hok

/-- Helper: any `connect` effect performed by
`handle_connection_requests` carries exactly the key and iv generated at
the start of that same call. -/
theorem connect_mem_handle (s : RemoteUI) (env : HandleEnv)
    (ip t k iv : String)
    (hm : Effect.connect t k iv ∈ (handle_connection_requests s env ip).effects) :
    k = env.aes_key ∧ iv = env.aes_iv := by
  by_cases hg : (s._snitun.isNone || s._token.isSome) = true
  · simp [handle_connection_requests, hg] at hm
  · simp only [Bool.not_eq_true] at hg
    rcases hr : env.tokenResp with _ | ⟨st, tok⟩
    · simp [handle_connection_requests, hg, hr] at hm
    · by_cases hst : st = 200
      · subst hst
        simp [handle_connection_requests, hg, hr] at hm
        exact ⟨hm.2.1, hm.2.2⟩
      · simp [handle_connection_requests, hg, hr, hst] at hm

/-- Claim C5: `load_backend` is idempotent — whenever a tunnel client is
already held, the call returns normally at once with no external effects
and an unchanged state; and every successful `load_backend` leaves a
tunnel client held, so two successive calls without an intervening
`close_backend` perform the registration/certificate/tunnel-start work at
most once. -/
theorem C5_load_backend_idempotent (s : RemoteUI) (env : LoadEnv)
    (h : s._snitun.isSome = true) :
    load_backend s env = { result := .ok, state := s, effects := [] } ∧
    ∀ s0 : RemoteUI, ∀ env0 : LoadEnv, (load_backend s0 env0).result = .ok →
      ((load_backend s0 env0).state)._snitun.isSome = true :=
  ⟨load_backend_noop_of_isSome s env h,
   fun s0 env0 hok => load_backend_ok_isSome s0 env0 hok⟩

/-- Witness for C5 at a concrete already-loaded state. -/
theorem C5_witness :
    load_backend activeState goodLoadEnv
      = { result := .ok, state := activeState, effects := [] } :=
  (C5_load_backend_idempotent activeState goodLoadEnv (by decide)).1

/-- Claim C8: `close_backend` never raises — for every state, loaded or
not, it returns normally and clears both the tunnel-client and the
certificate-handler references (the `_token` attribute is simply left
unchanged, and no operation ever sets it). -/
theorem C8_close_backend_total (s : RemoteUI) :
    (close_backend s).result = .ok ∧
    ((close_backend s).state)._snitun = none ∧
    ((close_backend s).state)._acme = none ∧
    ((close_backend s).state)._token = s._token := by
  simp [close_backend]

/-- Claim C9: with no tunnel client held, `handle_connection_requests`
raises `RemoteNotConnected` immediately: the state is unchanged and no
external effect (key generation, token request, connect) is performed. -/
theorem C9_not_connected (s : RemoteUI) (env : HandleEnv) (ip : String)
    (h : s._snitun = none) :
    handle_connection_requests s env ip
      = { result := .raised .remoteNotConnected, state := s, effects := [] } := by
  simp [handle_connection_requests, h]

/-- Witness for C9: a freshly constructed manager, never loaded. -/
theorem C9_witness :
    handle_connection_requests RemoteUI.init goodHandleEnv "203.0.113.7"
      = { result := .raised .remoteNotConnected, state := RemoteUI.init, effects := [] } :=
  C9_not_connected RemoteUI.init goodHandleEnv "203.0.113.7" rfl

/-- Claim C4: a registration response with a non-200 status makes
`load_backend` raise `RemoteBackendError` after the single registration
call, leaving the state exactly as it was; in particular a manager that
was UNLOADED (no certificate handler, no tunnel client) stays UNLOADED. -/
theorem C4_nonsuccess_registration (s : RemoteUI) (env : LoadEnv)
    (status : Nat) (d : RegisterData)
    (hs : s._snitun = none) (hr : env.register = .resp status d)
    (hst : status ≠ 200) :
    load_backend s env
      = { result := .raised .remoteBackendError, state := s,
          effects := [Effect.registerInstance] } ∧
    (s._acme = none →
      ((load_backend s env).state)._acme = none ∧
      ((load_backend s env).state)._snitun = none) := by
  have h : load_backend s env
      = { result := .raised .remoteBackendError, state := s,
          effects := [Effect.registerInstance] } := by
    simp [load_backend, hs, hr, hst]
  refine ⟨h, fun ha => ?_⟩
  rw [h]
  exact ⟨ha, hs⟩

/-- Witness for C4 at a concrete 500-status response from a fresh
manager. -/
theorem C4_witness :
    load_backend RemoteUI.init
        { register := .resp 500 regData, certValid := true, issueOk := true,
          startOk := true }
      = { result := .raised .remoteBackendError, state := RemoteUI.init,
          effects := [Effect.registerInstance] } :=
  (C4_nonsuccess_registration RemoteUI.init
    { register := .resp 500 regData, certValid := true, issueOk := true,
      startOk := true }
    500 regData rfl rfl (by decide)).1

/-- Claim C6: on a 200 registration response with body
`{domain, email, server}` and a valid pre-existing certificate,
`load_backend` succeeds, `snitun_server` afterwards equals the returned
`server`, the held tunnel client is bound to that server on port 443 and
has been started, and the performed work is exactly registration,
validity check, cert-chain load and tunnel start (no issuance). -/
theorem C6_round_trip (s : RemoteUI) (env : LoadEnv) (d : RegisterData)
    (hs : s._snitun = none) (hr : env.register = .resp 200 d)
    (hc : env.certValid = true) (hst : env.startOk = true) :
    (load_backend s env).result = .ok ∧
    ((load_backend s env).state).snitun_server = some d.server ∧
    ((load_backend s env).state)._snitun
      = some { server := d.server, port := 443, started := true } ∧
    (load_backend s env).effects
      = [Effect.registerInstance, Effect.isValidCertificate,
         Effect.loadCertChain, Effect.startTunnel d.server 443] := by
  simp [load_backend, startPhase, hs, hr, hc, hst, RemoteUI.snitun_server]

/-- Witness for C6 at the spec's concrete registration record. -/
theorem C6_witness :
    (load_backend RemoteUI.init goodLoadEnv).result = .ok ∧
    ((load_backend RemoteUI.init goodLoadEnv).state).snitun_server
      = some "relay1.example.org" ∧
    ((load_backend RemoteUI.init goodLoadEnv).state)._snitun
      = some { server := "relay1.example.org", port := 443, started := true } ∧
    (load_backend RemoteUI.init goodLoadEnv).effects
      = [Effect.registerInstance, Effect.isValidCertificate,
         Effect.loadCertChain, Effect.startTunnel "relay1.example.org" 443] :=
  C6_round_trip RemoteUI.init goodLoadEnv regData rfl rfl rfl rfl

/-- Claim C7: on a 200 token response with body `{token}`, the external
work of `handle_connection_requests` is exactly: generate a keyset,
request a token with that keyset, and call the tunnel client's `connect`
with the returned token and exactly that same freshly generated key and
iv; consequently two calls whose generated keysets differ never pass the
same key/iv pair to `connect`. -/
theorem C7_token_flow (s : RemoteUI) (env : HandleEnv) (ip tok : String)
    (hs : s._snitun.isSome = true) (ht : s._token = none)
    (hr : env.tokenResp = .resp 200 tok) :
    (handle_connection_requests s env ip).effects
      = [Effect.generateKeyset env.aes_key env.aes_iv,
         Effect.requestToken env.aes_key env.aes_iv,
         Effect.connect tok env.aes_key env.aes_iv] ∧
    ∀ s2 : RemoteUI, ∀ env2 : HandleEnv, ∀ ip2 t k iv t2 k2 iv2 : String,
      (env2.aes_key ≠ env.aes_key ∨ env2.aes_iv ≠ env.aes_iv) →
      Effect.connect t k iv ∈ (handle_connection_requests s env ip).effects →
      Effect.connect t2 k2 iv2 ∈ (handle_connection_requests s2 env2 ip2).effects →
      k2 ≠ k ∨ iv2 ≠ iv := by
  obtain ⟨c, hc⟩ := Option.isSome_iff_exists.mp hs
  constructor
  · simp [handle_connection_requests, hc, ht, hr]
  · intro s2 env2 ip2 t k iv t2 k2 iv2 hkey hm1 hm2
    obtain ⟨hk1, hiv1⟩ := connect_mem_handle s env ip t k iv hm1
    obtain ⟨hk2, hiv2⟩ := connect_mem_handle s2 env2 ip2 t2 k2 iv2 hm2
    subst hk1; subst hiv1; subst hk2; subst hiv2
    exact hkey

/-- Witness for C7 at a concrete active state with token response
`{token: T}`. -/
theorem C7_witness :
    (handle_connection_requests activeState goodHandleEnv "203.0.113.7").effects
      = [Effect.generateKeyset "k1" "iv1", Effect.requestToken "k1" "iv1",
         Effect.connect "T" "k1" "iv1"] :=
  (C7_token_flow activeState goodHandleEnv "203.0.113.7" "T"
    (by decide) (by decide) rfl).1

/-- Claim C10: `load_backend` assigns `self._snitun` and
`self._snitun_server` before awaiting `start()`; when `start()` raises,
the error propagates but the manager keeps a non-started tunnel-client
reference and the relay address, every further `load_backend` is a no-op
via the idempotency guard, and `close_backend` clears the reference
again. -/
theorem C10_start_failure (s : RemoteUI) (env : LoadEnv) (d : RegisterData)
    (hs : s._snitun = none) (hr : env.register = .resp 200 d)
    (hcv : env.certValid = true ∨ env.issueOk = true)
    (hst : env.startOk = false) :
    (load_backend s env).result = .raised .transportError ∧
    ((load_backend s env).state)._snitun
      = some { server := d.server, port := 443, started := false } ∧
    ((load_backend s env).state).snitun_server = some d.server ∧
    (∀ env2 : LoadEnv, load_backend ((load_backend s env).state) env2
        = { result := .ok, state := (load_backend s env).state, effects := [] }) ∧
    ((close_backend ((load_backend s env).state)).state)._snitun = none := by
  have hout : ((load_backend s env).state)._snitun
      = some { server := d.server, port := 443, started := false } ∧
      (load_backend s env).result = .raised .transportError ∧
      ((load_backend s env).state).snitun_server = some d.server := by
    by_cases hcb : env.certValid
    · simp [load_backend, startPhase, hs, hr, hcb, hst, RemoteUI.snitun_server]
    · have hio : env.issueOk = true := by
        rcases hcv with hx | hx
        · exact absurd hx hcb
        · exact hx
      simp [load_backend, startPhase, hs, hr, hcb, hio, hst, RemoteUI.snitun_server]
  refine ⟨hout.2.1, hout.1, hout.2.2, ?_, ?_⟩
  · intro env2
    apply load_backend_noop_of_isSome
    rw [hout.1]
    rfl
  · simp [close_backend]

/-- Witness for C10: fresh manager, 200 registration, valid certificate,
failing `start()`. -/
theorem C10_witness :
    (load_backend RemoteUI.init
        { register := .resp 200 regData, certValid := true, issueOk := true,
          startOk := false }).result = .raised .transportError ∧
    ((load_backend RemoteUI.init
        { register := .resp 200 regData, certValid := true, issueOk := true,
          startOk := false }).state)._snitun
      = some { server := "relay1.example.org", port := 443, started := false } :=
  ⟨(C10_start_failure RemoteUI.init
      { register := .resp 200 regData, certValid := true, issueOk := true,
        startOk := false } regData rfl rfl (Or.inl rfl) rfl).1,
   (C10_start_failure RemoteUI.init
      { register := .resp 200 regData, certValid := true, issueOk := true,
        startOk := false } regData rfl rfl (Or.inl rfl) rfl).2.1⟩

/-- Counterexample to claim C1 as stated: `close_backend` does not reset
`self._snitun_server`, so after a successful load followed by a close the
`snitun_server` property still reports the last relay server instead of
`None`. -/
theorem C1_counterexample :
    ((close_backend (load_backend RemoteUI.init goodLoadEnv).state).state).snitun_server
      = some "relay1.example.org" ∧
    ((close_backend (load_backend RemoteUI.init goodLoadEnv).state).state).snitun_server
      ≠ none := by
  constructor
  · rfl
  · decide

/-- Claim C1 (amended): the `snitun_server` property is `None` on a
freshly constructed manager, and `close_backend` clears the tunnel-client
and certificate-handler references but leaves `_snitun_server` exactly as
it was, so the property keeps returning the previously active relay
server after teardown. -/
theorem C1_relay_address_accessor (s : RemoteUI) :
    RemoteUI.init.snitun_server = none ∧
    ((close_backend s).state)._snitun = none ∧
    ((close_backend s).state)._acme = none ∧
    ((close_backend s).state).snitun_server = s.snitun_server := by
  refine ⟨rfl, ?_, ?_, ?_⟩ <;> simp [close_backend, RemoteUI.snitun_server]

/-- Counterexample to claim C2 as stated: a timed-out registration or
token call raises `asyncio.TimeoutError`, which is a different exception
from the `RemoteBackendError` raised by a non-200 status — the two
failures are distinguishable, so the call does not fail "identically". -/
theorem C2_counterexample :
    (load_backend RemoteUI.init
        { register := .timeout, certValid := true, issueOk := true,
          startOk := true }).result = .raised .timeoutError ∧
    (handle_connection_requests activeState
        { aes_key := "k9", aes_iv := "iv9", tokenResp := .timeout,
          connectOk := true } "203.0.113.7").result = .raised .timeoutError ∧
    PyError.timeoutError ≠ PyError.remoteBackendError := by
  decide

/-- Claim C2 (amended): a registration or token call exceeding the
10-time-unit bound makes the operation fail by raising
`asyncio.TimeoutError`; this aborts the call just like a non-200
response does, but the raised exception differs from the
`RemoteBackendError` produced by a non-success status, so the two
failures are distinguishable by the caller. -/
theorem C2_timeout_raises (s : RemoteUI) (env : LoadEnv)
    (s2 : RemoteUI) (env2 : HandleEnv) (ip : String) (c : SniTunClient)
    (hs : s._snitun = none) (hr : env.register = .timeout)
    (hs2 : s2._snitun = some c) (ht2 : s2._token = none)
    (hr2 : env2.tokenResp = .timeout) :
    (load_backend s env).result = .raised .timeoutError ∧
    (handle_connection_requests s2 env2 ip).result = .raised .timeoutError ∧
    PyError.timeoutError ≠ PyError.remoteBackendError := by
  refine ⟨?_, ?_, by decide⟩
  · simp [load_backend, hs, hr]
  · simp [handle_connection_requests, hs2, ht2, hr2]

/-- Witness for the amended C2 at concrete timed-out calls. -/
theorem C2_witness :
    (load_backend RemoteUI.init
        { register := .timeout, certValid := false, issueOk := false,
          startOk := false }).result = .raised .timeoutError :=
  (C2_timeout_raises RemoteUI.init
    { register := .timeout, certValid := false, issueOk := false,
      startOk := false }
    activeState
    { aes_key := "k9", aes_iv := "iv9", tokenResp := .timeout, connectOk := true }
    "203.0.113.7"
    { server := "relay1.example.org", port := 443, started := true }
    rfl rfl rfl rfl rfl).1

/-- Counterexample to claim C3 as stated: `handle_connection_requests`
never assigns `self._token`, so after one token exchange has completed a
second call on the same manager succeeds instead of raising the
not-connected error. -/
theorem C3_counterexample :
    (handle_connection_requests activeState goodHandleEnv "203.0.113.7").result
      = .ok ∧
    (handle_connection_requests
        (handle_connection_requests activeState goodHandleEnv "203.0.113.7").state
        { aes_key := "k2", aes_iv := "iv2", tokenResp := .resp 200 "T2",
          connectOk := true } "203.0.113.7").result = .ok := by
  decide

/-- Claim C3 (amended): the guard does raise the not-connected error
whenever the held-token flag is set (with no key generation or backend
call), but no operation of the manager ever sets that flag —
`handle_connection_requests`, `load_backend` and `close_backend` all
leave `_token` unchanged — so a completed token exchange never blocks a
subsequent `handle_connection_requests`. -/
theorem C3_token_guard (s : RemoteUI) (env : HandleEnv) (ip : String)
    (h : s._token.isSome = true) :
    (handle_connection_requests s env ip).result = .raised .remoteNotConnected ∧
    (handle_connection_requests s env ip).effects = [] ∧
    (∀ s0 : RemoteUI, ∀ env0 : HandleEnv, ∀ ip0 : String,
      ((handle_connection_requests s0 env0 ip0).state)._token = s0._token) ∧
    (∀ s0 : RemoteUI, ∀ env0 : LoadEnv,
      ((load_backend s0 env0).state)._token = s0._token) ∧
    (∀ s0 : RemoteUI, ((close_backend s0).state)._token = s0._token) := by
  refine ⟨?_, ?_, ?_, ?_, ?_⟩
  · simp [handle_connection_requests, h]
  · simp [handle_connection_requests, h]
  · intro s0 env0 ip0
    by_cases hg : (s0._snitun.isNone || s0._token.isSome) = true
    · simp [handle_connection_requests, hg]
    · simp only [Bool.not_eq_true] at hg
      rcases hr : env0.tokenResp with _ | ⟨st, tok⟩
      · simp [handle_connection_requests, hg, hr]
      · by_cases hst : st = 200
        · subst hst; simp [handle_connection_requests, hg, hr]
        · simp [handle_connection_requests, hg, hr, hst]
  · intro s0 env0
    by_cases hs0 : s0._snitun.isSome
    · simp [load_backend, hs0]
    · rcases hr : env0.register with _ | ⟨st, d⟩
      · simp [load_backend, hs0, hr]
      · by_cases hst : st = 200
        · subst hst
          by_cases hcv : env0.certValid
          · by_cases hso : env0.startOk <;>
              simp [load_backend, startPhase, hs0, hr, hcv, hso]
          · by_cases hio : env0.issueOk
            · by_cases hso : env0.startOk <;>
                simp [load_backend, startPhase, hs0, hr, hcv, hio, hso]
            · simp [load_backend, hs0, hr, hcv, hio]
        · simp [load_backend, hs0, hr, hst]
  · intro s0
    simp [close_backend]

/-- Witness for the amended C3 at a concrete state whose token flag is
artificially set. -/
theorem C3_witness :
    (handle_connection_requests
        { RemoteUI.init with _token := some "stale" } goodHandleEnv
        "203.0.113.7").result = .raised .remoteNotConnected :=
  (C3_token_guard { RemoteUI.init with _token := some "stale" } goodHandleEnv
    "203.0.113.7" rfl).1

end HassNabucasa
